import Mathlib

/-!
Verification of the `sshclient` repository (Go) against its natural-language
specification.  The Go source is shallowly embedded: pure computations become
Lean functions, channel/stream interactions become explicit event traces, and
the external SSH transport library is modelled through the narrow interface the
code consumes (wait outcomes, write pipes, request sends).
-/

namespace SshClient

/-! ## Timeout-bounded executor (client.go, first variant, lines 170-219)

`Run` produces a `Results{Err, RC, Stdout, Stderr}` value.  `exec` spawns a
worker goroutine that sends `Run`'s value on a channel `c` and races it in a
`select` against `time.After(timeout seconds)`.  The worker's completion
instant and the timer's firing instant decide which `select` case runs; when
both are ready at the same instant Go picks nondeterministically, which the
model exposes as a `tie` oracle. -/

/-- The `Results` struct of the first client variant: an internal error from
`Run` (opaque, identified by a number), the command's exit code, and the two
captured output strings. -/
structure RunResults where
  err : Option Nat
  rc : Int
  stdout : String
  stderr : String
deriving DecidableEq

/-- The error component of `exec`'s return: either the error `Run` produced,
forwarded unchanged, or the `fmt.Errorf("Command timed out after %d seconds",
timeout)` value built in the timer branch. -/
inductive ExecErr where
  | runErr (e : Nat)
  | timeout (secs : Nat)
deriving DecidableEq

/-- The named return values `(rc, stdout, stderr, err)` of `exec`.  Go
initialises them to zero values `0, "", "", nil`. -/
structure ExecReturn where
  rc : Int
  stdout : String
  stderr : String
  err : Option ExecErr
deriving DecidableEq

/-- Which `select` case runs: `true` when the worker's send on `c` is ready
strictly before the `time.After` timer fires, `false` when the timer fires
strictly first, and the scheduler's choice `tie` when both are ready. -/
def selectsResult (doneAt timeout : Nat) (tie : Bool) : Bool :=
  if doneAt < timeout then true
  else if timeout < doneAt then false
  else tie

/-- client.go:181-199.  `exec` returns the worker's `Results` fields when the
completion case wins the `select` (`err, rc, stdout, stderr = r.Err, r.RC,
r.Stdout, r.Stderr; return`), and otherwise returns with only `err` set to the
timeout error, leaving `rc`, `stdout`, `stderr` at their zero values.
`doneAt` is the instant (in seconds) at which `Run` completes and the worker's
send becomes ready; `timeout` is the argument given to `time.After`. -/
def exec (r : RunResults) (doneAt timeout : Nat) (tie : Bool) : ExecReturn :=
  if selectsResult doneAt timeout tie then
    ⟨r.rc, r.stdout, r.stderr, r.err.map ExecErr.runErr⟩
  else
    ⟨0, "", "", some (ExecErr.timeout timeout)⟩

/-! ### Completion-channel structure (claim C7)

The completion slot is created at client.go:184 as `c := make(chan Results)`,
i.e. with no capacity argument.  The timer branch (client.go:194-196) assigns
`err` and returns; it contains no receive from `c`. -/

/-- client.go:184 — `make(chan Results)` creates an unbuffered channel:
capacity 0. -/
def execCompletionChanCap : Nat := 0

/-- client.go:194-196 — number of receives from the completion channel
performed on the timeout branch (the branch body only assigns `err` and
returns). -/
def timeoutBranchReceives : Nat := 0

/-- Go channel semantics (external runtime collaborator): a send on a channel
completes only if buffer capacity is available or some receive is eventually
performed against it; with zero capacity and zero receives the sender blocks
forever. -/
def sendCanComplete (cap receives : Nat) : Bool :=
  (cap != 0) || (receives != 0)

/-! ## Session.Close (client.go:268-274)

`Close` calls `s.ssh.Close()` and, when `s.client != nil`, `s.client.Close()`.
Both callees belong to the transport collaborator, whose `Close` is modelled as
setting a closed flag (closing an already-closed transport handle returns an
error that this code discards; it does not panic or block).  `Session.Close`
itself returns nothing, so no error can be surfaced. -/

/-- The close-relevant state of a `Session`: whether the logical channel has
been closed, whether a client connection is owned (`s.client != nil`), and
whether that connection has been closed. -/
structure SessionState where
  sshClosed : Bool
  hasClient : Bool
  clientClosed : Bool
deriving DecidableEq

/-- client.go:268-274.  `s.ssh.Close()`, then `if s.client != nil
{ s.client.Close() }`.  The function returns no error value. -/
def SessionClose (s : SessionState) : SessionState :=
  let s1 : SessionState := { s with sshClosed := true }
  if s1.hasClient then { s1 with clientClosed := true } else s1

/-! ## SCP sink codec (client.go, second variant, lines 472-546)

`Copy` writes a control line built by `fmt.Fprintf(w, "C%#o %d %s\n", mode,
size, filename)`, streams the reader's bytes, writes a NUL terminator, closes
the write side, and waits for the remote `scp` process.  On an `*ssh.ExitError`
it decodes the captured stdout with `bytes.FieldsFunc` splitting on byte values
below 3. -/

/-- The separator predicate passed to `bytes.FieldsFunc` at client.go:536-538:
`func(c rune) bool { return c < 3 }`. -/
def scpMarker (c : Char) : Bool := c.toNat < 3

/-- Accumulator-passing worker for `fieldsFunc`: `acc` holds the current field
reversed. -/
def fieldsFuncAux (p : Char → Bool) : List Char → List Char → List (List Char)
  | acc, [] => if acc.isEmpty then [] else [acc.reverse]
  | acc, c :: rest =>
    if p c then
      if acc.isEmpty then fieldsFuncAux p [] rest
      else acc.reverse :: fieldsFuncAux p [] rest
    else fieldsFuncAux p (c :: acc) rest

/-- Go's `bytes.FieldsFunc`: the maximal runs of characters not satisfying `p`,
in order, with empty runs dropped. -/
def fieldsFunc (p : Char → Bool) (l : List Char) : List (List Char) :=
  fieldsFuncAux p [] l

/-- Go's `strings.TrimRight(s, "\n")`: remove every trailing newline. -/
def trimRightNl (l : List Char) : List Char :=
  (l.reverse.dropWhile (fun c => c == '\n')).reverse

/-- client.go:530-542.  The message surfaced in a `CmdError` from the captured
stdout: when the captured stdout is longer than 2 bytes, drop its first byte
(`b = b[1:]`), split the rest with `bytes.FieldsFunc` on values below 3, take
`parts[0]` and trim trailing newlines; when it is 2 bytes or shorter, the raw
stdout is used unchanged.  `none` models the `parts[0]` index-out-of-range
panic that Go raises when the split yields no parts. -/
def decodeMsg (cs : List Char) : Option (List Char) :=
  if 2 < cs.length then
    match fieldsFunc scpMarker (cs.drop 1) with
    | [] => none
    | part :: _ => some (trimRightNl part)
  else
    some cs

/-- String-level wrapper of `decodeMsg`. -/
def decodeMsgStr (s : String) : Option String :=
  (decodeMsg s.data).map List.asString

/-- Modelled from the spec (§4.3 decoding): the decoder as the claim words it
for any non-empty stdout — strip the leading status byte, split the remainder
on bytes of value < 3, take only the first resulting segment, and trim a
trailing newline (`none` when no segment results). -/
def specScpDecode (cs : List Char) : Option (List Char) :=
  match fieldsFunc scpMarker (cs.drop 1) with
  | [] => none
  | part :: _ => some (trimRightNl part)

/-! ### Control-line encoding -/

/-- Go's `%#o` verb on a non-negative integer: octal digits with a leading `0`
added when the first digit is not already `0` (so `0` formats as `"0"`,
`420` as `"0644"`). -/
def octAlt (n : Nat) : String :=
  if n = 0 then "0" else List.asString ('0' :: Nat.toDigits 8 n)

/-- client.go:509 — `fmt.Sprintf("C%#o %d %s\n", mode, size, filename)`: the
control line `Copy` writes, with the filename argument used exactly as
passed. -/
def controlLine (mode size : Nat) (filename : String) : String :=
  "C" ++ octAlt mode ++ " " ++ toString size ++ " " ++ filename ++ "\n"

/-- client.go:472-484 — `CopyFile` passes its `filename` argument unchanged as
the `filename` parameter of `Copy` (no `filepath.Base`). -/
def copyFileNameArg (filename : String) : String := filename

/-- Modelled from the spec (§6): Go's `%06o`, the file mode as zero-padded
six-digit octal. -/
def oct6 (n : Nat) : String :=
  let ds := Nat.toDigits 8 n
  List.asString (List.replicate (6 - ds.length) '0' ++ ds)

/-- Modelled from the spec (§4.3 step 2): the base filename, the part after the
last `/`, with no directory component. -/
def baseName (s : String) : String :=
  (s.splitOn "/").getLastD s

/-- Modelled from the spec (§6): control line `C%06o %d %s\n` with `%s` the
base filename. -/
def specControlLine (mode size : Nat) (filename : String) : String :=
  "C" ++ oct6 mode ++ " " ++ toString size ++ " " ++ baseName filename ++ "\n"

/-! ### The `Copy` body as an event trace -/

/-- What `s.ssh.Wait()` (external transport collaborator) reports about the
remote `scp` process: `clean` is a `nil` error, i.e. remote exit status 0;
`exit rc` is an `*ssh.ExitError` carrying the non-zero exit status `rc`;
`fail e` is any other (non-exit) error. -/
inductive WaitOutcome where
  | clean
  | exit (rc : Int)
  | fail (e : Nat)
deriving DecidableEq

/-- The value `Copy` returns: `ok` is a `nil` error; `pipeErr`/`startErr`
forward the `StdinPipe`/`Start` failures; `ioErr` is the wrapped
`fmt.Errorf("copy error: %w", err)`; `cmdErr` is the structured
`CmdError{rc, stdout, stderr}` (its message is `none` on the `parts[0]` panic
path); `waitErr` forwards a non-`ExitError` failure from `Wait` unchanged. -/
inductive CopyResult where
  | ok
  | pipeErr (e : Nat)
  | startErr (e : Nat)
  | ioErr (e : Nat)
  | cmdErr (rc : Int) (stdout : Option String) (stderr : String)
  | waitErr (e : Nat)
deriving DecidableEq

/-- An action `Copy` performs on the channel's input stream: writing a string
of bytes, or closing the write side. -/
inductive ChanEvent where
  | write (s : String)
  | closeW
deriving DecidableEq

/-- client.go:487-546, `Session.Copy`, as the trace of channel-input events it
performs together with its returned value.  Fallible external steps are
injected: `pipeE` is a `StdinPipe` failure, `startE` a `Start` failure, `ioE`
an `io.Copy` failure with `part` the body bytes already written before the
failure, `wait` the outcome of `s.ssh.Wait()`, and `capturedOut`/`capturedErr`
the contents of the session's stdout/stderr buffers when `Wait` returns. -/
def copyRun (pipeE startE ioE : Option Nat) (wait : WaitOutcome)
    (mode size : Nat) (filename : String) (body part : String)
    (capturedOut capturedErr : String) : List ChanEvent × CopyResult :=
  match pipeE with
  | some e => ([], .pipeErr e)
  | none =>
    match startE with
    | some e => ([.closeW], .startErr e)
    | none =>
      let hdr : ChanEvent := .write (controlLine mode size filename)
      match ioE with
      | some e => ([hdr, .write part, .closeW], .ioErr e)
      | none =>
        let events := [hdr, .write body, .write "\x00", .closeW]
        match wait with
        | .clean => (events, .ok)
        | .exit rc => (events, .cmdErr rc (decodeMsgStr capturedOut) capturedErr)
        | .fail e => (events, .waitErr e)

/-- The successive strings a trace writes onto the channel input, in order. -/
def writeStrings : List ChanEvent → List String
  | [] => []
  | .write s :: rest => s :: writeStrings rest
  | .closeW :: rest => writeStrings rest

/-! ## Test server (server.go)

`Server` builds the bind address at server.go:178-183 and writes the chosen
port back at server.go:187.  `handleChannel`'s request loop dispatches `"exec"`
requests at server.go:272-285. -/

/-- server.go:182/188 — `fmt.Sprintf("%s:%d", hostname, port)`. -/
def addrString (hostname : String) (port : Int) : String :=
  hostname ++ ":" ++ toString port

/-- server.go:178-183.  A fresh local `listenPort` (zero value) is declared;
when `options.Port == nil` the pointer is aimed at it; the bind address is then
formatted from `listenPort` — which is still 0 in every case — so the value a
caller supplied through `options.Port` never reaches the bind address. -/
def serverListenAddr (hostname : String) (_optPort : Option Int) : String :=
  let listenPort : Int := 0
  addrString hostname listenPort

/-- server.go:187 — `*(options.Port) = listener.Addr().(*net.TCPAddr).Port`:
whatever port the listener actually obtained is written back through
`options.Port`, for both a caller-supplied and a defaulted pointer. -/
def serverPortWriteBack (chosen : Int) : Int := chosen

/-- Modelled from the spec (§4.4 startup, §6): bind on the requested port when
`options.Port` points to a non-zero value, otherwise on an ephemeral port
(port 0). -/
def specListenAddr (hostname : String) (optPort : Option Int) : String :=
  addrString hostname (optPort.getD 0)

/-! ### The `"exec"` dispatch branch -/

/-- server.go:273 — `cmd := string(req.Payload[4:])`.  Go slicing `b[4:]` is
defined only when `len(b) >= 4` (otherwise it panics, modelled as `none`); no
other check relates the skipped 4 bytes to the remaining length. -/
def execCmdOfPayload (payload : List Nat) : Option (List Nat) :=
  if 4 ≤ payload.length then some (payload.drop 4) else none

/-- server.go:280 — `[]byte{0, 0, 0, byte(rc)}`: three zero bytes followed by
the Go conversion `byte(rc)`, the low 8 bits of the exit code. -/
def exitStatusPayload (rc : Int) : List Nat :=
  [0, 0, 0, (rc % 256).toNat]

/-- Modelled from the spec (§6): the 4-byte big-endian encoding of an unsigned
exit code. -/
def beBytes4 (n : Nat) : List Nat :=
  [n / 16777216 % 256, n / 65536 % 256, n / 256 % 256, n % 256]

/-- A channel request sent by the server with `connection.SendRequest(name,
wantReply, payload)`. -/
structure SentRequest where
  name : String
  wantReply : Bool
  payload : List Nat
deriving DecidableEq

/-- An observable action of the dispatcher on the channel: sending a side
request, replying to the in-flight request (`req.Reply(actionOk, nil)`), or
closing the channel. -/
inductive SrvEvent where
  | request (r : SentRequest)
  | reply (ok : Bool)
  | closeChannel
deriving DecidableEq

/-- server.go:272-285, the `case "exec"` branch: extract the command as
`req.Payload[4:]` (panic, modelled `none`, when the payload is shorter than 4
bytes), run the bound handler on it, then send the `"exit-status"` request with
`want-reply` false and payload `{0,0,0,byte(rc)}`, reply to the request with
`actionOk` (false exactly when the handler returned an error), and close the
channel.  `handler cmd = (rc, handlerErrored)`. -/
def execBranch (payload : List Nat) (handler : List Nat → Int × Bool) :
    Option (List SrvEvent) :=
  (execCmdOfPayload payload).map fun cmd =>
    let res := handler cmd
    [.request ⟨"exit-status", false, exitStatusPayload res.1⟩,
     .reply !res.2,
     .closeChannel]

/-! ## Helper lemmas -/

/-- Once the accumulator is non-empty, `fieldsFuncAux` always emits at least
one field. -/
theorem fieldsFuncAux_cons_ne_nil (p : Char → Bool) (l : List Char) :
    ∀ (a : Char) (acc : List Char), fieldsFuncAux p (a :: acc) l ≠ [] := by
  induction l with
  | nil =>
    intro a acc
    simp [fieldsFuncAux]
  | cons c rest ih =>
    intro a acc
    by_cases hc : p c
    · simp [fieldsFuncAux, hc]
    · simpa [fieldsFuncAux, hc] using ih c (a :: acc)

/-- `fieldsFunc` yields no field exactly when every character is a
separator. -/
theorem fieldsFunc_nil_iff (p : Char → Bool) (l : List Char) :
    fieldsFunc p l = [] ↔ ∀ c ∈ l, p c := by
  induction l with
  | nil => simp [fieldsFunc, fieldsFuncAux]
  | cons c rest ih =>
    by_cases hc : p c
    · simpa [fieldsFunc, fieldsFuncAux, hc] using ih
    · have hne := fieldsFuncAux_cons_ne_nil p rest c []
      simp [fieldsFunc, fieldsFuncAux, hc, hne]

/-- For an exit code in `[0, 256)` the truncated payload coincides with the
4-byte big-endian encoding. -/
theorem exitStatusPayload_eq_beBytes4 (rc : Int) (h0 : 0 ≤ rc) (hlt : rc < 256) :
    exitStatusPayload rc = beBytes4 rc.toNat := by
  have hmod : rc % 256 = rc := Int.emod_eq_of_lt h0 hlt
  simp only [exitStatusPayload, beBytes4, hmod, List.cons.injEq, and_true]
  omega

/-! ## Claim theorems -/

/-- Claim C1: `exec` delivers exactly one outcome.  If the worker completes
strictly before the deadline, the caller gets the `Results` fields and never a
timeout error; if the deadline elapses strictly first, the caller gets the
timeout error with `rc`, `stdout`, `stderr` left at their zero values; and in
every case a returned timeout error comes with the zero values, never with a
`Results` payload. -/
theorem exec_timeout_race (r : RunResults) (doneAt timeout : Nat) (tie : Bool) :
    (doneAt < timeout →
      exec r doneAt timeout tie = ⟨r.rc, r.stdout, r.stderr, r.err.map ExecErr.runErr⟩ ∧
      ∀ t, (exec r doneAt timeout tie).err ≠ some (ExecErr.timeout t)) ∧
    (timeout < doneAt →
      exec r doneAt timeout tie = ⟨0, "", "", some (ExecErr.timeout timeout)⟩) ∧
    (∀ t, (exec r doneAt timeout tie).err = some (ExecErr.timeout t) →
      (exec r doneAt timeout tie).rc = 0 ∧ (exec r doneAt timeout tie).stdout = "" ∧
      (exec r doneAt timeout tie).stderr = "") := by
  refine ⟨?_, ?_, ?_⟩
  · intro h
    have hs : selectsResult doneAt timeout tie = true := by
      unfold selectsResult
      rw [if_pos h]
    refine ⟨by simp [exec, hs], ?_⟩
    intro t
    simp only [exec, hs, if_true]
    cases r.err <;> simp
  · intro h
    have hs : selectsResult doneAt timeout tie = false := by
      unfold selectsResult
      rw [if_neg (by omega), if_pos h]
    simp [exec, hs]
  · intro t ht
    by_cases hs : selectsResult doneAt timeout tie
    · exfalso
      simp only [exec, hs, if_true] at ht
      cases herr : r.err <;> simp [herr] at ht
    · simp [exec, hs]

/-- Witness for C1 at concrete inputs: a worker finishing at 10 s against a 5 s
deadline yields the timeout error with zero values; a worker finishing at 2 s
against a 5 s deadline yields its `Results` fields. -/
theorem exec_timeout_race_witness :
    exec ⟨none, 7, "out", "boo"⟩ 10 5 false = ⟨0, "", "", some (ExecErr.timeout 5)⟩ ∧
    exec ⟨none, 7, "out", "boo"⟩ 2 5 true = ⟨7, "out", "boo", none⟩ := by
  constructor
  · exact (exec_timeout_race ⟨none, 7, "out", "boo"⟩ 10 5 false).2.1 (by decide)
  · exact ((exec_timeout_race ⟨none, 7, "out", "boo"⟩ 2 5 true).1 (by decide)).1

/-- Claim C7 (code bug): the completion slot of `exec` is `make(chan Results)`
— capacity 0, unbuffered — and the timeout branch performs no receive from it,
so a worker whose result becomes ready after the deadline has won can never
complete its send: the claimed buffered/non-blocking handoff is absent. -/
theorem exec_completion_channel_blocks :
    execCompletionChanCap = 0 ∧ timeoutBranchReceives = 0 ∧
    sendCanComplete execCompletionChanCap timeoutBranchReceives = false := by
  decide

/-- Claim C8: `Session.Close` is idempotent — a second call produces exactly
the state the first call produced (and, having no return value, it can surface
no error). -/
theorem session_close_idempotent (s : SessionState) :
    SessionClose (SessionClose s) = SessionClose s := by
  cases s with
  | mk sshClosed hasClient clientClosed =>
    cases hasClient <;> simp [SessionClose]

/-- Claim C2, counterexample: at mode `0644` (420), size 5 and the path
`dir/file.txt` — also the string `CopyFile` forwards for that path — the bytes
`Copy` puts on the channel start with `C0644 5 dir/file.txt\n` (Go `%#o`, raw
filename), not the claimed `C000644 5 file.txt\n` (`%06o`, base filename). -/
theorem copy_control_line_mismatch :
    String.join (writeStrings (copyRun none none none .clean 420 5
        (copyFileNameArg "dir/file.txt") "hello" "" "" "").1) ≠
      specControlLine 420 5 "dir/file.txt" ++ "hello" ++ "\x00" := by
  decide

/-- Claim C2 as amended: on a transfer with no injected failure, the channel
input receives exactly the control line `C%#o %d %s\n` — alternate-form octal
mode, byte length, and the filename argument exactly as passed (which is what
`CopyFile` hands over, directory component included) — then the body verbatim,
then one NUL byte, and the write side is closed last. -/
theorem copy_wire_bytes (mode size : Nat) (fn body out errS : String)
    (wait : WaitOutcome) :
    (copyRun none none none wait mode size fn body "" out errS).1 =
      [.write (controlLine mode size fn), .write body, .write "\x00", .closeW] ∧
    writeStrings (copyRun none none none wait mode size fn body "" out errS).1 =
      [controlLine mode size fn, body, "\x00"] ∧
    (copyRun none none none wait mode size fn body "" out errS).1.getLast? =
      some .closeW ∧
    controlLine mode size (copyFileNameArg fn) = controlLine mode size fn := by
  cases wait <;> exact ⟨rfl, rfl, rfl, rfl⟩

/-- Claim C3, counterexample: the remote stdout `"\x01a"` is non-empty, yet
`Copy` surfaces it raw (the decode only runs past 2 bytes), while the claimed
decoding procedure would yield `"a"`. -/
theorem scp_short_stdout_not_decoded :
    decodeMsgStr "\x01a" = some "\x01a" ∧
    (specScpDecode "\x01a".data).map List.asString = some "a" ∧
    (some "\x01a" : Option String) ≠ some "a" := by
  decide

/-- Claim C3 as amended: for captured stdout longer than 2 bytes the surfaced
message is exactly the spec's procedure — strip the status byte, split on
bytes < 3, keep the first segment, trim trailing newlines — and on the reply
`"\x01warning text\n\x02ignored\n"` it yields `"warning text"`, discarding the
rest. -/
theorem scp_first_message_decoded (s : String) (h : 2 < s.length) :
    decodeMsg s.data = specScpDecode s.data ∧
    decodeMsgStr "\x01warning text\n\x02ignored\n" = some "warning text" := by
  constructor
  · have hd : 2 < s.data.length := h
    unfold decodeMsg specScpDecode
    rw [if_pos hd]
  · decide

/-- Witness for C3's amended theorem at the spec's concrete reply. -/
theorem scp_first_message_decoded_witness :
    2 < ("\x01warning text\n\x02ignored\n" : String).length ∧
    decodeMsg ("\x01warning text\n\x02ignored\n" : String).data =
      specScpDecode ("\x01warning text\n\x02ignored\n" : String).data :=
  ⟨by decide,
   (scp_first_message_decoded "\x01warning text\n\x02ignored\n" (by decide)).1⟩

/-- Claim C4: with the pipe and start steps succeeding, `Copy` returns `nil`
exactly when `Wait` reports a clean exit (remote status 0); an
`*ssh.ExitError` with status `rc` produces the `CmdError` with that code, the
decoded first stdout message and the captured stderr; and an `io.Copy` failure
closes the write side immediately after the partial body — no NUL — and yields
the wrapped I/O error, never a `CmdError`. -/
theorem copy_result_classification (wait : WaitOutcome) (e : Nat)
    (mode size : Nat) (fn body part out errS : String) :
    ((copyRun none none none wait mode size fn body part out errS).2 = .ok ↔
      wait = .clean) ∧
    (∀ rc : Int, wait = .exit rc →
      (copyRun none none none wait mode size fn body part out errS).2 =
        .cmdErr rc (decodeMsgStr out) errS) ∧
    ((copyRun none none (some e) wait mode size fn body part out errS).2 =
        .ioErr e ∧
      (copyRun none none (some e) wait mode size fn body part out errS).1 =
        [.write (controlLine mode size fn), .write part, .closeW] ∧
      ∀ rc m st,
        (copyRun none none (some e) wait mode size fn body part out errS).2 ≠
          .cmdErr rc m st) := by
  refine ⟨?_, ?_, rfl, rfl, ?_⟩
  · cases wait <;> simp [copyRun]
  · intro rc h
    subst h
    rfl
  · intro rc m st h
    exact CopyResult.noConfusion h

/-- Witness for C4 at concrete inputs: a remote exit status 23 with captured
stdout `"\x01oops\n"` and stderr `"STDERR"` yields
`CmdError{23, "oops", "STDERR"}`. -/
theorem copy_result_classification_witness :
    (copyRun none none none (.exit 23) 420 3 "f" "abc" "" "\x01oops\n" "STDERR").2 =
      .cmdErr 23 (some "oops") "STDERR" := by
  have h := (copy_result_classification (.exit 23) 0 420 3 "f" "abc" ""
    "\x01oops\n" "STDERR").2.1 23 rfl
  rw [h]
  decide

/-- Claim C9: the decode of the captured stdout hits the unguarded `parts[0]`
(modelled as `none`) exactly when the stdout is longer than 2 bytes and every
byte after the leading one has value below 3; whenever some later byte is at
least 3 (or the stdout is short), the decode is total. -/
theorem scp_decode_totality (cs : List Char) :
    decodeMsg cs = none ↔ (2 < cs.length ∧ ∀ c ∈ cs.drop 1, c.toNat < 3) := by
  unfold decodeMsg
  by_cases h : 2 < cs.length
  · rw [if_pos h]
    cases hf : fieldsFunc scpMarker (cs.drop 1) with
    | nil =>
      simp only [h, true_and]
      constructor
      · intro _ c hc
        have hall := (fieldsFunc_nil_iff scpMarker (cs.drop 1)).mp hf
        simpa [scpMarker] using hall c hc
      · intro _
        trivial
    | cons p rest =>
      simp only [h, true_and]
      constructor
      · intro hx
        exact absurd hx (by simp)
      · intro hall
        have hnil : fieldsFunc scpMarker (cs.drop 1) = [] :=
          (fieldsFunc_nil_iff scpMarker (cs.drop 1)).mpr
            (fun c hc => by simpa [scpMarker] using hall c hc)
        rw [hf] at hnil
        exact absurd hnil (by simp)
  · rw [if_neg h]
    simp [h]

/-- Claim C5, counterexample: a handler returning exit code 256 makes the
dispatcher send the payload `{0,0,0,0}` (`byte(256)` truncates), while the
4-byte big-endian encoding of 256 is `{0,0,1,0}`. -/
theorem exit_status_payload_truncated :
    execBranch [0, 0, 0, 1, 97] (fun _ => (256, false)) =
      some [.request ⟨"exit-status", false, [0, 0, 0, 0]⟩, .reply true,
        .closeChannel] ∧
    beBytes4 256 = [0, 0, 1, 0] ∧
    ([0, 0, 0, 0] : List Nat) ≠ beBytes4 256 := by
  decide

/-- Claim C5 as amended: for every exec request whose payload carries at least
the 4-byte prefix, and every handler exit code in `[0, 256)`, the dispatcher
sends the `"exit-status"` channel request with `want-reply` false and the
4-byte big-endian payload of the code, and closes the channel afterwards
(codes outside `[0, 256)` are truncated to their low byte). -/
theorem exit_status_request_encoding (payload : List Nat)
    (handler : List Nat → Int × Bool) (h4 : 4 ≤ payload.length)
    (h0 : 0 ≤ (handler (payload.drop 4)).1)
    (hlt : (handler (payload.drop 4)).1 < 256) :
    execBranch payload handler =
      some [.request ⟨"exit-status", false,
              beBytes4 (handler (payload.drop 4)).1.toNat⟩,
            .reply !(handler (payload.drop 4)).2, .closeChannel] := by
  have hcmd : execCmdOfPayload payload = some (payload.drop 4) := by
    unfold execCmdOfPayload
    rw [if_pos h4]
  simp [execBranch, hcmd, exitStatusPayload_eq_beBytes4 _ h0 hlt]

/-- Witness for C5's amended theorem: a 6-byte payload and a scripted handler
returning code 23 produce the big-endian `{0,0,0,23}` payload. -/
theorem exit_status_request_encoding_witness :
    execBranch [0, 0, 0, 2, 108, 115] (fun _ => (23, false)) =
      some [.request ⟨"exit-status", false, beBytes4 23⟩, .reply true,
        .closeChannel] :=
  exit_status_request_encoding [0, 0, 0, 2, 108, 115] (fun _ => (23, false))
    (by decide) (by decide) (by decide)

/-- Claim C6, counterexample: with `options.Port` pointing at the non-zero
value 12200, `Server` still binds `localhost:0` — the requested port never
reaches the bind address, contrary to the claimed `localhost:12200`. -/
theorem server_bind_ignores_requested_port :
    serverListenAddr "localhost" (some 12200) = "localhost:0" ∧
    specListenAddr "localhost" (some 12200) = "localhost:12200" ∧
    serverListenAddr "localhost" (some 12200) ≠
      specListenAddr "localhost" (some 12200) := by
  decide

/-- Claim C6 as amended: `Server` always binds `hostname:0` (an ephemeral
port), whatever `options.Port` holds, and the port the listener actually
obtained is written back to the caller through `options.Port`. -/
theorem server_listen_ephemeral (hostname : String) (optPort : Option Int)
    (chosen : Int) :
    serverListenAddr hostname optPort = addrString hostname 0 ∧
    serverPortWriteBack chosen = chosen :=
  ⟨rfl, rfl⟩

/-- Claim C10: the `"exec"` branch takes the command as `req.Payload[4:]` with
no validation — any 4-byte prefix whatsoever is skipped and the rest is the
command — and a payload shorter than 4 bytes makes the slice panic (modelled
`none`), so totality of the request loop needs every exec payload to be at
least 4 bytes long. -/
theorem exec_payload_extraction (pre cmd : List Nat) (hpre : pre.length = 4) :
    execCmdOfPayload (pre ++ cmd) = some cmd ∧
    ∀ p : List Nat, p.length < 4 → execCmdOfPayload p = none := by
  constructor
  · unfold execCmdOfPayload
    rw [if_pos (by rw [List.length_append, hpre]; omega)]
    rw [← hpre, List.drop_left]
  · intro p hp
    unfold execCmdOfPayload
    rw [if_neg (by omega)]

/-- Witness for C10 at concrete inputs: the prefix `{9,9,9,9}` — whose declared
length does not match the remainder — is skipped without complaint and the
command is the remaining bytes, while a 2-byte payload panics. -/
theorem exec_payload_extraction_witness :
    execCmdOfPayload ([9, 9, 9, 9] ++ [108, 115]) = some [108, 115] ∧
    execCmdOfPayload [0, 0] = none :=
  ⟨(exec_payload_extraction [9, 9, 9, 9] [108, 115] (by decide)).1,
   (exec_payload_extraction [9, 9, 9, 9] [108, 115] (by decide)).2 [0, 0]
     (by decide)⟩

end SshClient
